import Mathlib

/-!
Verification of the remote-browser-control session relay and its thin
clients.  The repository ships three client variants: the first variant of
frontend/src/App.js (rounding coordinate mapper, touch end at the origin),
the client in unnamed/part_001 (clamping mapper, discrete mouse primitives,
tap detection) and the second variant of frontend/src/App.js (same clamping
mapper and tap detection, but a debounced single-click mouse strategy).
Pointer coordinates are modelled as rationals, timestamps (milliseconds from
the JS clock) as integers.  The server-side Session Relay is not part of the
repository's files; its operations are modelled from the specification and
each such definition says so in its doc comment.
-/

/-- Mouse button as carried by the wire messages (strings left and right in
the JSON protocol). -/
inductive MouseButton where
  | left
  | right
deriving DecidableEq, Repr

/-- Client-to-server wire messages, one constructor per kind of the protocol
table: resize, mousemove, mousedown, mouseup, click, dblclick, scroll,
keydown, keyup, keypress and input. -/
inductive Msg where
  | resize (width height : ℤ)
  | mousemove (x y : ℚ)
  | mousedown (x y : ℚ) (button : MouseButton)
  | mouseup (x y : ℚ) (button : MouseButton)
  | click (x y : ℚ) (button : MouseButton)
  | dblclick (x y : ℚ)
  | scroll (x y : ℚ) (deltaX deltaY : ℤ)
  | keydown (key code : String)
  | keyup (key code : String)
  | keypress (key code : String)
  | input (text : String)
deriving DecidableEq, Repr

/-- JS Math.round on a rational: floor of the value plus one half. -/
def roundJS (q : ℚ) : ℤ :=
  ⌊q + 1 / 2⌋

/-- The conversion the clients apply to a DOM button number: button 2 maps to
the right button, everything else to the left one. -/
def buttonOf (b : ℤ) : MouseButton :=
  if b = 2 then MouseButton.right else MouseButton.left

namespace ClientV1

/-- getCoordinates of the first App.js variant: scale factors are
canvas.width over rect.width and canvas.height over rect.height, the client
offset is scaled and rounded with Math.round.  No clamping is applied.  The
canvas geometry and the event's client position are the arguments; the
early return for a missing canvas is not modelled (the mapper is only
reached from handlers on the canvas element). -/
def getCoordinates (canvasW canvasH rectLeft rectTop rectW rectH clientX clientY : ℚ) :
    ℤ × ℤ :=
  let scaleX := canvasW / rectW
  let scaleY := canvasH / rectH
  (roundJS ((clientX - rectLeft) * scaleX), roundJS ((clientY - rectTop) * scaleY))

/-- handleTouchEnd of the first App.js variant: when the canvas exists it
sends a mouseup at (0, 0) followed by a click at (0, 0), both with the left
button.  The event's changed-touch position is received but never read, so
it appears here as two ignored arguments. -/
def handleTouchEnd (canvasPresent : Bool) (_touchX _touchY : ℚ) : List Msg :=
  if canvasPresent then
    [Msg.mouseup 0 0 MouseButton.left, Msg.click 0 0 MouseButton.left]
  else
    []

end ClientV1

namespace Client

/-- The unclamped rescale step of getCoordinates shared by unnamed/part_001
and the second App.js variant: scaleX is canvasWidth over displayWidth,
scaleY is canvasHeight over displayHeight, and the client offset from the
canvas rectangle is multiplied by the scale factors. -/
def getCoordinatesRaw (canvasW canvasH rectLeft rectTop rectW rectH clientX clientY : ℚ) :
    ℚ × ℚ :=
  let scaleX := canvasW / rectW
  let scaleY := canvasH / rectH
  ((clientX - rectLeft) * scaleX, (clientY - rectTop) * scaleY)

/-- getCoordinates of unnamed/part_001 and the second App.js variant: the
rescaled position with each component clamped by Math.max(0, Math.min(canvas
dimension, value)). -/
def getCoordinates (canvasW canvasH rectLeft rectTop rectW rectH clientX clientY : ℚ) :
    ℚ × ℚ :=
  let raw := getCoordinatesRaw canvasW canvasH rectLeft rectTop rectW rectH clientX clientY
  (max 0 (min canvasW raw.1), max 0 (min canvasH raw.2))

/-- The rescale written as the specification words it: the client offset
times the ratio of logical viewport size to the last-reported display
size. -/
def specRescale (canvasW canvasH rectLeft rectTop rectW rectH clientX clientY : ℚ) :
    ℚ × ℚ :=
  ((clientX - rectLeft) * canvasW / rectW, (clientY - rectTop) * canvasH / rectH)

/-- handleMouseDown of unnamed/part_001: sends a single mousedown message at
the mapped coordinates with the event's button. -/
def handleMouseDown (x y : ℚ) (button : ℤ) : List Msg :=
  [Msg.mousedown x y (buttonOf button)]

/-- handleMouseUp of unnamed/part_001: sends a single mouseup message at the
mapped coordinates with the event's button. -/
def handleMouseUp (x y : ℚ) (button : ℤ) : List Msg :=
  [Msg.mouseup x y (buttonOf button)]

/-- handleClick of unnamed/part_001: sends a single click message at the
mapped coordinates, always with the left button. -/
def handleClick (x y : ℚ) : List Msg :=
  [Msg.click x y MouseButton.left]

/-- handleKeyDown of all client variants: a key string of length one is sent
as keypress, any other key as keydown. -/
def handleKeyDown (key code : String) : Msg :=
  if key.length = 1 then Msg.keypress key code else Msg.keydown key code

/-- handleKeyUp of all client variants: a keyup message is sent only when the
key string is longer than one character; otherwise nothing is sent. -/
def handleKeyUp (key code : String) : Option Msg :=
  if key.length > 1 then some (Msg.keyup key code) else none

/-- handleTouchEnd of unnamed/part_001 and the second App.js variant: a
mouseup at the last tracked touch position, followed by a click at the same
position exactly when the touch lasted under 300 ms and moved under 10
pixels.  The source compares Math.sqrt(dx*dx + dy*dy) with 10; both sides
are nonnegative, so the embedding compares dx*dx + dy*dy with 100, which is
equivalent and keeps the definition computable (the equivalence with the
square-root form is proved in the theorem about this function). -/
def handleTouchEnd (lastX lastY startX startY : ℚ) (startTime now : ℤ) : List Msg :=
  let elapsed := now - startTime
  let dx := |lastX - startX|
  let dy := |lastY - startY|
  Msg.mouseup lastX lastY MouseButton.left ::
    (if elapsed < 300 ∧ dx * dx + dy * dy < 100 then
      [Msg.click lastX lastY MouseButton.left]
    else
      [])

end Client

namespace ClientDebounced

/-- handleMouseDown of the second App.js variant: records the press position
in a ref but sends no message at all. -/
def handleMouseDown (_x _y : ℚ) (_button : ℤ) : List Msg :=
  []

/-- handleMouseUp of the second App.js variant: clears the pressed flag but
sends no message at all. -/
def handleMouseUp (_x _y : ℚ) : List Msg :=
  []

/-- handleClick of the second App.js variant: when at least 100 ms
(CLICK_DEBOUNCE) have passed since the last click it sends one click message
with the event's button; inside the debounce window it sends nothing. -/
def handleClick (now lastClick : ℤ) (x y : ℚ) (button : ℤ) : List Msg :=
  if now - lastClick < 100 then [] else [Msg.click x y (buttonOf button)]

end ClientDebounced

namespace Relay

/-- Modelled from the spec: the Session state machine of section 4.3
(Initializing, Active, Disconnected, Closing, Closed). -/
inductive SessionState where
  | initializing
  | active
  | disconnected
  | closing
  | closed
deriving DecidableEq, Repr

/-- Modelled from the spec: the Session record of section 3 — identifier,
exclusively owned browser handle, viewport, state, at most one attached
connection (tracked by its identifier) and the last-activity timestamp. -/
structure Session where
  id : ℕ
  browserHandle : ℕ
  viewport : ℤ × ℤ
  state : SessionState
  connection : Option ℕ
  lastActivity : ℤ
deriving DecidableEq, Repr

/-- Modelled from the spec: the error taxonomy of section 7 that session
creation and connection attachment can surface. -/
inductive SessionError where
  | invalidViewport
  | driverUnavailable
  | sessionNotFound
  | sessionGone
deriving DecidableEq, Repr

/-- Modelled from the spec: the terminal control message a preempted client
is sent before its connection is closed (section 4.2). -/
inductive ControlMsg where
  | terminal
deriving DecidableEq, Repr

/-- Modelled from the spec: session creation (sections 4.1 and 6).  The
Session Relay backend is not among the repository's files, so creation is
modelled from the spec's words: non-positive dimensions fail with
InvalidViewport; otherwise the browser handle is opened synchronously — the
driver's answer is the driverHandle argument, none meaning the driver cannot
allocate an instance, which fails with DriverUnavailable — and the fresh
Session holds the requested viewport and sits connectable but idle
(Disconnected, lastActivity the creation time). -/
def createSession (driverHandle : Option ℕ) (sid : ℕ) (now w h : ℤ) :
    Except SessionError Session :=
  if w ≤ 0 ∨ h ≤ 0 then
    Except.error SessionError.invalidViewport
  else
    match driverHandle with
    | none => Except.error SessionError.driverUnavailable
    | some hdl =>
        Except.ok
          { id := sid, browserHandle := hdl, viewport := (w, h),
            state := SessionState.disconnected, connection := none,
            lastActivity := now }

/-- Modelled from the spec: the reaper's per-session decision (section 4.1) —
a session is reaped exactly when its state is Disconnected and now minus
lastActivity exceeds idleTimeout. -/
def shouldReap (idleTimeout now : ℤ) (s : Session) : Bool :=
  s.state == SessionState.disconnected && idleTimeout < now - s.lastActivity

/-- Modelled from the spec: one reaper scan over the index — the sessions it
destroys and the sessions it keeps. -/
def reapScan (idleTimeout now : ℤ) (sessions : List Session) :
    List Session × List Session :=
  (sessions.filter (shouldReap idleTimeout now),
   sessions.filter (fun s => !shouldReap idleTimeout now s))

/-- Modelled from the spec: the connection-tracking invariant of the state
machine (section 4.3) — a Disconnected session has no attached
connection. -/
def wfSession (s : Session) : Bool :=
  !(s.state == SessionState.disconnected && s.connection.isSome)

/-- Modelled from the spec: lookup in the Session Manager's index, here a
list searched by identifier. -/
def findSession (sessions : List Session) (sid : ℕ) : Option Session :=
  sessions.find? (fun s => s.id == sid)

/-- Modelled from the spec: the states that reject new attachment (Closing
and Closed, section 4.2). -/
def isTerminalState : SessionState → Bool
  | SessionState.closing => true
  | SessionState.closed => true
  | _ => false

/-- Modelled from the spec: binding a new connection to a session —
the connection reference is set and the session transitions to Active. -/
def attachSession (s : Session) (conn : ℕ) : Session :=
  { s with connection := some conn, state := SessionState.active }

/-- The outcome of a successful attach: the updated index and, when a
previous connection was preempted, that connection's identifier with the
terminal control message sent to it. -/
structure AttachOk where
  sessions : List Session
  closedOld : Option (ℕ × ControlMsg)
deriving DecidableEq, Repr

/-- Modelled from the spec: attach(sessionId, connection) of section 4.2,
walking the index — an unknown identifier fails with SessionNotFound; a
session in Closing or Closed fails with SessionGone and nothing changes;
otherwise any existing connection is preempted (notified with the terminal
control message) and the new one is bound, moving the session to Active. -/
def attach : List Session → ℕ → ℕ → Except SessionError AttachOk
  | [], _, _ => Except.error SessionError.sessionNotFound
  | s :: rest, sid, conn =>
    if s.id == sid then
      if isTerminalState s.state then
        Except.error SessionError.sessionGone
      else
        Except.ok
          { sessions := attachSession s conn :: rest,
            closedOld := s.connection.map (fun c => (c, ControlMsg.terminal)) }
    else
      match attach rest sid conn with
      | Except.error e => Except.error e
      | Except.ok r => Except.ok { r with sessions := s :: r.sessions }

/-- Modelled from the spec: the browser-level actions of the Browser Driver
Adapter that the Input Relay dispatches, one per accepted message kind. -/
inductive Action where
  | moveMouse (x y : ℚ)
  | pressMouse (x y : ℚ) (button : MouseButton)
  | releaseMouse (x y : ℚ) (button : MouseButton)
  | clickMouse (x y : ℚ) (button : MouseButton)
  | dblclickMouse (x y : ℚ)
  | wheel (x y : ℚ) (deltaX deltaY : ℤ)
  | pressKey (key : String)
  | releaseKey (key : String)
  | insertChar (key : String)
  | insertText (text : String)
  | setViewport (width height : ℤ)
deriving DecidableEq, Repr

/-- Modelled from the spec: the Input Relay's per-message dispatch (section
4.5) — each message kind maps to its own primitive action, statelessly, so
mouse-down, mouse-up and click are independent and no pairing state exists
from which a click could be synthesized. -/
def relayDispatch : Msg → Action
  | Msg.resize w h => Action.setViewport w h
  | Msg.mousemove x y => Action.moveMouse x y
  | Msg.mousedown x y b => Action.pressMouse x y b
  | Msg.mouseup x y b => Action.releaseMouse x y b
  | Msg.click x y b => Action.clickMouse x y b
  | Msg.dblclick x y => Action.dblclickMouse x y
  | Msg.scroll x y dx dy => Action.wheel x y dx dy
  | Msg.keydown k _ => Action.pressKey k
  | Msg.keyup k _ => Action.releaseKey k
  | Msg.keypress k _ => Action.insertChar k
  | Msg.input t => Action.insertText t

/-- Modelled from the spec: the observable events of the Frame Streamer loop
(section 4.4) — a capture completing with a fresh frame, and the transport
finishing the send of the frame in flight. -/
inductive StreamEvent where
  | captureDone (frame : ℕ)
  | sendDone
deriving DecidableEq, Repr

/-- Modelled from the spec: the per-connection delivery state of the Frame
Streamer — the frames currently in flight on the transport and the frames
captured but not yet handed to it.  Both are lists so that the at-most-one
bounds are proved rather than built into the types. -/
structure StreamerState where
  sending : List ℕ
  pending : List ℕ
deriving DecidableEq, Repr

/-- The streamer's initial state: nothing in flight, nothing pending. -/
def streamInit : StreamerState :=
  { sending := [], pending := [] }

/-- Modelled from the spec: one step of the backpressure policy (section
4.4).  A completed capture starts sending immediately when the transport is
free; when the previous frame has not finished sending, the new frame
replaces the pending one — the stale frame is dropped, never queued.  A
completed send promotes the pending frame to in flight. -/
def streamStep (st : StreamerState) : StreamEvent → StreamerState
  | StreamEvent.captureDone f =>
      if st.sending.isEmpty then
        { sending := [f], pending := [] }
      else
        { st with pending := [f] }
  | StreamEvent.sendDone =>
      { sending := st.pending, pending := [] }

/-- The streamer state reached from the initial state after a sequence of
events. -/
def streamRun (evs : List StreamEvent) : StreamerState :=
  evs.foldl streamStep streamInit

end Relay

section Theorems

/-- The clamp step keeps any rescaled component inside the bound when the
bound is nonnegative. -/
theorem clamp_mem_bound (bound v : ℚ) (hb : 0 ≤ bound) :
    0 ≤ max 0 (min bound v) ∧ max 0 (min bound v) ≤ bound :=
  ⟨le_max_left _ _, max_le hb (min_le_left _ _)⟩

/-- C1 (amended): in the clamping client variants, for nonnegative canvas
dimensions every mapped position lies inside the rectangle
from (0, 0) to (canvasW, canvasH); the mapper is total, so no event is
rejected. -/
theorem getCoordinates_clamped (canvasW canvasH rectLeft rectTop rectW rectH clientX clientY : ℚ)
    (hw : 0 ≤ canvasW) (hh : 0 ≤ canvasH) :
    0 ≤ (Client.getCoordinates canvasW canvasH rectLeft rectTop rectW rectH clientX clientY).1 ∧
      (Client.getCoordinates canvasW canvasH rectLeft rectTop rectW rectH clientX clientY).1 ≤
        canvasW ∧
      0 ≤ (Client.getCoordinates canvasW canvasH rectLeft rectTop rectW rectH clientX clientY).2 ∧
      (Client.getCoordinates canvasW canvasH rectLeft rectTop rectW rectH clientX clientY).2 ≤
        canvasH := by
  obtain ⟨h1, h2⟩ := clamp_mem_bound canvasW
    (Client.getCoordinatesRaw canvasW canvasH rectLeft rectTop rectW rectH clientX clientY).1 hw
  obtain ⟨h3, h4⟩ := clamp_mem_bound canvasH
    (Client.getCoordinatesRaw canvasW canvasH rectLeft rectTop rectW rectH clientX clientY).2 hh
  exact ⟨h1, h2, h3, h4⟩

/-- C1 witness: the clamping bounds evaluated at a concrete out-of-bounds
pointer event on a 1280 by 720 canvas displayed at 320 by 180. -/
theorem getCoordinates_clamped_witness :
    (0 : ℚ) ≤ 1280 ∧ (0 : ℚ) ≤ 720 ∧
      (0 ≤ (Client.getCoordinates 1280 720 10 10 320 180 5000 (-40)).1 ∧
        (Client.getCoordinates 1280 720 10 10 320 180 5000 (-40)).1 ≤ 1280 ∧
        0 ≤ (Client.getCoordinates 1280 720 10 10 320 180 5000 (-40)).2 ∧
        (Client.getCoordinates 1280 720 10 10 320 180 5000 (-40)).2 ≤ 720) :=
  ⟨by norm_num, by norm_num,
    getCoordinates_clamped 1280 720 10 10 320 180 5000 (-40) (by norm_num) (by norm_num)⟩

/-- C1 counterexample: in the first App.js variant the mapping does not
clamp — a pointer event at client position (0, 0) on a 100 by 100 canvas
whose display rectangle starts at (10, 10) maps to (-10, -10), outside
the rectangle from (0, 0) to (100, 100). -/
theorem getCoordinates_unclamped_cex :
    ClientV1.getCoordinates 100 100 10 10 100 100 0 0 = (-10, -10) ∧
      (ClientV1.getCoordinates 100 100 10 10 100 100 0 0).1 < 0 := by
  constructor <;> norm_num [ClientV1.getCoordinates, roundJS, Prod.ext_iff]

/-- C2: before clamping, the mapped coordinate is exactly the client offset
from the canvas rectangle times the ratio of logical canvas size to the
last-reported display size, componentwise; the published coordinate is that
value clamped. -/
theorem getCoordinates_rescale_ratio
    (canvasW canvasH rectLeft rectTop rectW rectH clientX clientY : ℚ) :
    Client.getCoordinatesRaw canvasW canvasH rectLeft rectTop rectW rectH clientX clientY =
      Client.specRescale canvasW canvasH rectLeft rectTop rectW rectH clientX clientY ∧
      Client.getCoordinates canvasW canvasH rectLeft rectTop rectW rectH clientX clientY =
        (max 0 (min canvasW
            (Client.specRescale canvasW canvasH rectLeft rectTop rectW rectH clientX clientY).1),
         max 0 (min canvasH
            (Client.specRescale canvasW canvasH rectLeft rectTop rectW rectH clientX clientY).2)) := by
  constructor
  · simp [Client.getCoordinatesRaw, Client.specRescale, mul_div_assoc]
  · simp [Client.getCoordinates, Client.getCoordinatesRaw, Client.specRescale, mul_div_assoc]

/-- C3: mouse-down, mouse-up and click are independent primitives.  The
discrete client sends exactly one message of the matching kind per handler;
the debounced client sends no mouse-down or mouse-up at all and exactly one
click outside the debounce window; the relay maps each of the three message
kinds to its own primitive action and a click action arises only from a
click message, never from a down/up pair. -/
theorem mouse_primitives_independent (x y : ℚ) (bi now lastClick : ℤ) :
    (Client.handleMouseDown x y bi = [Msg.mousedown x y (buttonOf bi)] ∧
      Client.handleMouseUp x y bi = [Msg.mouseup x y (buttonOf bi)] ∧
      Client.handleClick x y = [Msg.click x y MouseButton.left]) ∧
    (ClientDebounced.handleMouseDown x y bi = [] ∧
      ClientDebounced.handleMouseUp x y = [] ∧
      (¬ now - lastClick < 100 →
        ClientDebounced.handleClick now lastClick x y bi = [Msg.click x y (buttonOf bi)])) ∧
    (Relay.relayDispatch (Msg.mousedown x y (buttonOf bi)) =
        Relay.Action.pressMouse x y (buttonOf bi) ∧
      Relay.relayDispatch (Msg.mouseup x y (buttonOf bi)) =
        Relay.Action.releaseMouse x y (buttonOf bi) ∧
      Relay.relayDispatch (Msg.click x y (buttonOf bi)) =
        Relay.Action.clickMouse x y (buttonOf bi) ∧
      ∀ m u v b, Relay.relayDispatch m = Relay.Action.clickMouse u v b → m = Msg.click u v b) := by
  refine ⟨⟨rfl, rfl, rfl⟩, ⟨rfl, rfl, ?_⟩, rfl, rfl, rfl, ?_⟩
  · intro hdeb
    simp [ClientDebounced.handleClick, hdeb]
  · intro m u v b hm
    cases m <;> simp_all [Relay.relayDispatch]

/-- C4: a single printable character (key string of length one) goes out as
keypress, any other key as keydown, and keyup goes out exactly for key
strings longer than one character — never for printable characters. -/
theorem keyboard_dispatch_split (key code : String) :
    (key.length = 1 → Client.handleKeyDown key code = Msg.keypress key code) ∧
    (key.length ≠ 1 → Client.handleKeyDown key code = Msg.keydown key code) ∧
    (1 < key.length → Client.handleKeyUp key code = some (Msg.keyup key code)) ∧
    (key.length ≤ 1 → Client.handleKeyUp key code = none) := by
  refine ⟨fun h => ?_, fun h => ?_, fun h => ?_, fun h => ?_⟩
  · simp [Client.handleKeyDown, h]
  · simp [Client.handleKeyDown, h]
  · simp [Client.handleKeyUp, h]
  · rw [Client.handleKeyUp, if_neg (by omega)]

end Theorems

section RelayTheorems

/-- C5: with a driver able to allocate an instance, creation with positive
dimensions succeeds and the resulting Session carries exactly the requested
viewport; with a non-positive dimension it fails with InvalidViewport no
matter what the driver would answer. -/
theorem createSession_valid_viewport (hdl sid : ℕ) (now w h : ℤ) :
    (0 < w → 0 < h →
      Relay.createSession (some hdl) sid now w h =
        Except.ok
          { id := sid, browserHandle := hdl, viewport := (w, h),
            state := Relay.SessionState.disconnected, connection := none,
            lastActivity := now }) ∧
    (w ≤ 0 ∨ h ≤ 0 → ∀ d : Option ℕ,
      Relay.createSession d sid now w h = Except.error Relay.SessionError.invalidViewport) := by
  constructor
  · intro hw hh
    unfold Relay.createSession
    rw [if_neg (by omega)]
  · intro hbad d
    unfold Relay.createSession
    rw [if_pos hbad]

/-- One streamer step keeps both delivery lists at length at most one. -/
theorem streamStep_bound (st : Relay.StreamerState) (e : Relay.StreamEvent)
    (h1 : st.sending.length ≤ 1) (h2 : st.pending.length ≤ 1) :
    (Relay.streamStep st e).sending.length ≤ 1 ∧
      (Relay.streamStep st e).pending.length ≤ 1 := by
  cases e with
  | captureDone f =>
    by_cases hs : st.sending.isEmpty <;> simp [Relay.streamStep, hs, h1]
  | sendDone =>
    simp [Relay.streamStep, h2]

/-- Folding the streamer over any event sequence preserves the at-most-one
bounds on both delivery lists. -/
theorem streamFold_bound (evs : List Relay.StreamEvent) :
    ∀ st : Relay.StreamerState, st.sending.length ≤ 1 → st.pending.length ≤ 1 →
      (evs.foldl Relay.streamStep st).sending.length ≤ 1 ∧
        (evs.foldl Relay.streamStep st).pending.length ≤ 1 := by
  induction evs with
  | nil => exact fun st h1 h2 => ⟨h1, h2⟩
  | cons e rest ih =>
    intro st h1 h2
    obtain ⟨g1, g2⟩ := streamStep_bound st e h1 h2
    exact ih _ g1 g2

/-- C6: in every state the streamer can reach, at most one frame is in
flight and at most one is pending; and when a capture completes while the
transport is still busy, the new frame becomes the only pending one — the
previously pending frame is dropped, never queued behind it. -/
theorem frame_in_flight (evs : List Relay.StreamEvent) (f : ℕ) :
    (Relay.streamRun evs).sending.length ≤ 1 ∧
      (Relay.streamRun evs).pending.length ≤ 1 ∧
      ((Relay.streamRun evs).sending ≠ [] →
        Relay.streamStep (Relay.streamRun evs) (Relay.StreamEvent.captureDone f) =
          { sending := (Relay.streamRun evs).sending, pending := [f] }) := by
  obtain ⟨h1, h2⟩ := streamFold_bound evs Relay.streamInit (by simp [Relay.streamInit])
    (by simp [Relay.streamInit])
  refine ⟨h1, h2, fun hne => ?_⟩
  simp [Relay.streamStep, List.isEmpty_iff, hne]

/-- C7: the reaper's decision holds exactly for a Disconnected session whose
idle time exceeds the timeout; under the connection-tracking invariant a
session with an attached connection is never reaped; and one scan destroys
exactly the sessions the decision selects, keeping the rest. -/
theorem reaper_destroys_iff (idleTimeout now : ℤ) (s : Relay.Session)
    (ss : List Relay.Session) :
    (Relay.shouldReap idleTimeout now s = true ↔
      (s.state = Relay.SessionState.disconnected ∧ idleTimeout < now - s.lastActivity)) ∧
    (Relay.wfSession s = true → s.connection.isSome = true →
      Relay.shouldReap idleTimeout now s = false) ∧
    (∀ t, t ∈ (Relay.reapScan idleTimeout now ss).1 ↔
      t ∈ ss ∧ Relay.shouldReap idleTimeout now t = true) ∧
    (∀ t, t ∈ (Relay.reapScan idleTimeout now ss).2 ↔
      t ∈ ss ∧ Relay.shouldReap idleTimeout now t = false) := by
  refine ⟨?_, ?_, ?_, ?_⟩
  · simp [Relay.shouldReap]
  · intro hwf hconn
    simp [Relay.wfSession, hconn] at hwf
    simp [Relay.shouldReap, hwf]
  · intro t
    simp [Relay.reapScan, List.mem_filter]
  · intro t
    simp [Relay.reapScan, List.mem_filter]

/-- C8: attach fails with SessionNotFound when no session has the
identifier; when the first session with the identifier is Closing or Closed
it fails with SessionGone, changing nothing, so such a session never gains
a connection; and otherwise it succeeds, the session found afterwards under
that identifier is the old one bound to the new connection in state Active,
and a preempted connection is notified with the terminal control message. -/
theorem attach_spec (ss : List Relay.Session) (sid conn : ℕ) :
    (Relay.findSession ss sid = none →
      Relay.attach ss sid conn = Except.error Relay.SessionError.sessionNotFound) ∧
    (∀ s, Relay.findSession ss sid = some s →
      (Relay.isTerminalState s.state = true →
        Relay.attach ss sid conn = Except.error Relay.SessionError.sessionGone) ∧
      (Relay.isTerminalState s.state = false →
        ∃ r, Relay.attach ss sid conn = Except.ok r ∧
          Relay.findSession r.sessions sid = some (Relay.attachSession s conn) ∧
          (Relay.attachSession s conn).state = Relay.SessionState.active ∧
          (Relay.attachSession s conn).connection = some conn ∧
          r.closedOld = s.connection.map (fun c => (c, Relay.ControlMsg.terminal)))) := by
  induction ss with
  | nil =>
    refine ⟨fun _ => rfl, fun s hs => ?_⟩
    simp [Relay.findSession] at hs
  | cons a rest ih =>
    by_cases ha : a.id = sid
    · refine ⟨fun hnone => ?_, fun s hs => ?_⟩
      · simp [Relay.findSession, List.find?_cons, ha] at hnone
      · have hsa : s = a := by
          simp [Relay.findSession, List.find?_cons, ha] at hs
          exact hs.symm
        subst hsa
        constructor
        · intro hterm
          simp [Relay.attach, ha, hterm]
        · intro hterm
          refine ⟨{ sessions := Relay.attachSession s conn :: rest,
                    closedOld := s.connection.map (fun c => (c, Relay.ControlMsg.terminal)) },
                  ?_, ?_, rfl, rfl, rfl⟩
          · simp [Relay.attach, ha, hterm]
          · simp [Relay.findSession, List.find?_cons, Relay.attachSession, ha]
    · have hfind : Relay.findSession (a :: rest) sid = Relay.findSession rest sid := by
        simp [Relay.findSession, List.find?_cons, ha]
      refine ⟨fun hnone => ?_, fun s hs => ?_⟩
      · rw [hfind] at hnone
        have := ih.1 hnone
        simp [Relay.attach, ha, this]
      · rw [hfind] at hs
        constructor
        · intro hterm
          have := (ih.2 s hs).1 hterm
          simp [Relay.attach, ha, this]
        · intro hterm
          obtain ⟨r, hr, hrfind, hst, hco, hcl⟩ := (ih.2 s hs).2 hterm
          refine ⟨{ r with sessions := a :: r.sessions }, ?_, ?_, hst, hco, hcl⟩
          · simp [Relay.attach, ha, hr]
          · simpa [Relay.findSession, List.find?_cons, ha] using hrfind

/-- C9: in the first App.js variant every touch end (with the canvas
present) sends a mouseup and then a click, both at (0, 0), whatever the
touch position was. -/
theorem touchEnd_origin_v1 (touchX touchY : ℚ) :
    ClientV1.handleTouchEnd true touchX touchY =
      [Msg.mouseup 0 0 MouseButton.left, Msg.click 0 0 MouseButton.left] := rfl

/-- The source's tap test, Math.sqrt(dx*dx + dy*dy) < 10 on the absolute
per-axis distances, holds exactly when the squared distance is below 100. -/
theorem tap_sqrt_iff (a b : ℚ) :
    (|a| * |a| + |b| * |b| < 100) ↔
      Real.sqrt (((a : ℝ)) ^ 2 + ((b : ℝ)) ^ 2) < 10 := by
  rw [Real.sqrt_lt' (by norm_num : (0 : ℝ) < 10)]
  have hcast : ((a : ℝ)) ^ 2 + ((b : ℝ)) ^ 2 = ((|a| * |a| + |b| * |b| : ℚ) : ℝ) := by
    push_cast
    rw [abs_mul_abs_self, abs_mul_abs_self]
    ring
  rw [hcast]
  constructor
  · intro hq
    calc ((|a| * |a| + |b| * |b| : ℚ) : ℝ) < ((100 : ℚ) : ℝ) := by exact_mod_cast hq
      _ = (10 : ℝ) ^ 2 := by norm_num
  · intro hr
    have : ((|a| * |a| + |b| * |b| : ℚ) : ℝ) < ((100 : ℚ) : ℝ) := by
      calc ((|a| * |a| + |b| * |b| : ℚ) : ℝ) < (10 : ℝ) ^ 2 := hr
        _ = ((100 : ℚ) : ℝ) := by norm_num
    exact_mod_cast this

/-- C10: in the tap-detecting client variants, every touch end emits a
mouseup at the last tracked touch position, and exactly when the touch
lasted under 300 milliseconds and ended at euclidean distance under 10
pixels from its start it also emits a click at that same position;
otherwise the mouseup is the only message. -/
theorem touchEnd_tap_iff (lastX lastY startX startY : ℚ) (startTime now : ℤ) :
    (Client.handleTouchEnd lastX lastY startX startY startTime now).head? =
      some (Msg.mouseup lastX lastY MouseButton.left) ∧
    ((now - startTime < 300 ∧
        Real.sqrt ((((lastX - startX : ℚ)) : ℝ) ^ 2 + (((lastY - startY : ℚ)) : ℝ) ^ 2) < 10) →
      Client.handleTouchEnd lastX lastY startX startY startTime now =
        [Msg.mouseup lastX lastY MouseButton.left, Msg.click lastX lastY MouseButton.left]) ∧
    (¬(now - startTime < 300 ∧
        Real.sqrt ((((lastX - startX : ℚ)) : ℝ) ^ 2 + (((lastY - startY : ℚ)) : ℝ) ^ 2) < 10) →
      Client.handleTouchEnd lastX lastY startX startY startTime now =
        [Msg.mouseup lastX lastY MouseButton.left]) := by
  refine ⟨rfl, ?_, ?_⟩
  · rintro ⟨ht, hd⟩
    have hc : now - startTime < 300 ∧
        |lastX - startX| * |lastX - startX| + |lastY - startY| * |lastY - startY| < 100 :=
      ⟨ht, (tap_sqrt_iff _ _).mpr hd⟩
    simp only [Client.handleTouchEnd]
    rw [if_pos hc]
  · intro hn
    have hc : ¬(now - startTime < 300 ∧
        |lastX - startX| * |lastX - startX| + |lastY - startY| * |lastY - startY| < 100) :=
      fun hcq => hn ⟨hcq.1, (tap_sqrt_iff _ _).mp hcq.2⟩
    simp only [Client.handleTouchEnd]
    rw [if_neg hc]

end RelayTheorems
